import Mathlib

/-!
Verification of the llama bridge (`src/native/cpp/llama_bridge.cpp`).

The bridge is a thread-safe C interface over global mutable state.  We give a
shallow embedding: the global variables of the C++ file become one record
`BridgeState`, each exported `llm_*` function becomes a pure function from its
arguments and the pre-state to its return value and the post-state.  C pointers
that may be NULL are embedded as `Option`; the output character buffer of
`llm_generate` is embedded as the list of characters the call writes (in write
order), so "never writes at or beyond index capacity" becomes a bound on the
length of that list.  `int32_t` values are embedded as `Int`; the spec places
32-bit wraparound out of scope ("wraps are out of scope — 32-bit space is
assumed sufficient for process lifetime"), so no modular reduction is applied.
Float-typed generation parameters are carried as `Rat` payloads: no bridge
function ever reads them, they are only copied.
The file-system check `fopen(path, "rb")` is embedded as an environment
parameter `fileReadable : String → Bool` passed to `llm_load_model`.
-/

/-- Embeds `LLMModelParams` (llama_bridge.cpp lines 39-46).  `model_path` is a
`const char*`, hence `Option String` (`none` = NULL pointer). -/
structure LLMModelParams where
  model_path : Option String
  n_ctx : Int
  n_threads : Int
  n_batch : Int
  rope_freq_base : Rat
  rope_freq_scale : Rat
  deriving Repr, DecidableEq

/-- Embeds `LLMGenerateParams` (lines 49-57).  `stop_sequences` is a
`const char*` JSON string, hence `Option String`. -/
structure LLMGenerateParams where
  n_predict : Int
  temperature : Rat
  top_p : Rat
  top_k : Int
  repeat_penalty : Rat
  repeat_last_n : Int
  stop_sequences : Option String
  deriving Repr, DecidableEq

/-- The value-initialized `LLMGenerateParams` produced by
`new InferenceRequest()` (line 341): all members zeroed, pointer NULL. -/
def zeroGenerateParams : LLMGenerateParams :=
  { n_predict := 0, temperature := 0, top_p := 0, top_k := 0,
    repeat_penalty := 0, repeat_last_n := 0, stop_sequences := none }

/-- Embeds `InferenceRequest` (lines 63-72).  The `TokenCallback`/`user_data`
pair is opaque to the bridge (only stored and, on success, invoked once with
`result`); we record its presence as a `Bool`. -/
structure InferenceRequest where
  prompt : String
  params : LLMGenerateParams
  has_callback : Bool
  result : String
  completed : Bool
  success : Bool
  error : String
  deriving Repr, DecidableEq

/-- The global mutable state of llama_bridge.cpp (lines 79-138):
`g_model_loaded`, `g_model_path`, `g_n_ctx`, `g_n_threads`, `g_last_error`,
`g_thread_pool` (embedded as whether it is non-NULL plus its size), and the
atomic `g_active_inference_count`, together with the function-local
`static int32_t request_id` counter of `llm_generate_async` (line 337). -/
structure BridgeState where
  model_loaded : Bool
  model_path : String
  n_ctx : Int
  n_threads : Int
  last_error : String
  pool_started : Bool
  pool_size : Nat
  active_count : Int
  request_counter : Nat
  deriving Repr, DecidableEq

/-- Process-start state: statics initialized per lines 82-86 and 137-138. -/
def initState : BridgeState :=
  { model_loaded := false, model_path := "", n_ctx := 2048, n_threads := 4,
    last_error := "", pool_started := false, pool_size := 0,
    active_count := 0, request_counter := 0 }

/-- Embeds `set_error` (lines 192-195): overwrites the shared error string. -/
def set_error (error : String) (s : BridgeState) : BridgeState :=
  { s with last_error := error }

/-- Embeds `llm_get_last_error` (lines 184-187). -/
def llm_get_last_error (s : BridgeState) : String :=
  s.last_error

/-- Embeds `llm_init` (lines 147-158): clamps hardware concurrency to [2,8]
and creates the thread pool if absent.  `hardware_concurrency` is an
environment input. -/
def llm_init (hardware_concurrency : Nat) (s : BridgeState) : BridgeState :=
  let num_threads := if hardware_concurrency < 2 then 2
                     else if hardware_concurrency > 8 then 8
                     else hardware_concurrency
  if s.pool_started then s
  else { s with pool_started := true, pool_size := num_threads }

/-- Embeds `llm_load_model` (lines 207-235).  `fileReadable` embeds the
`fopen(path, "rb")` existence check; returns the `int32_t` status and the
post-state. -/
def llm_load_model (fileReadable : String → Bool)
    (params : Option LLMModelParams) (s : BridgeState) : Int × BridgeState :=
  match params with
  | none => (-1, set_error "Invalid parameters" s)
  | some p =>
    match p.model_path with
    | none => (-1, set_error "Invalid parameters" s)
    | some path =>
      if !fileReadable path then
        (-1, set_error ("Model file not found: " ++ path) s)
      else
        (0, { s with
                model_path := path,
                n_ctx := if p.n_ctx > 0 then p.n_ctx else 2048,
                n_threads := if p.n_threads > 0 then p.n_threads else 4,
                model_loaded := true })

/-- Embeds `llm_is_model_loaded` (lines 240-243). -/
def llm_is_model_loaded (s : BridgeState) : Int :=
  if s.model_loaded then 1 else 0

/-- Embeds `llm_unload_model` (lines 248-257). -/
def llm_unload_model (s : BridgeState) : BridgeState :=
  { s with model_loaded := false, model_path := "" }

/-- Embeds `llm_get_context_size` (lines 417-420). -/
def llm_get_context_size (s : BridgeState) : Int :=
  if s.model_loaded then s.n_ctx else 0

/-- The hard-coded simulated inference output of `llm_generate` (line 301). -/
def placeholder : String :=
  "I\x27m a local AI assistant running on your device! I process everything locally without needing an internet connection. Your privacy is completely protected."

/-- The outcome of one `llm_generate` call: the `int32_t` return value, the
characters written into `output_buffer` in write order (content then the NUL
terminator; empty when nothing is written), the post-state, and the largest
value `g_active_inference_count` holds during the call (recording the
`++`/`--` pair of lines 292 and 312). -/
structure GenOutcome where
  ret : Int
  written : List Char
  state : BridgeState
  peak_active : Int
  deriving Repr, DecidableEq

/-- Embeds `llm_generate` (lines 272-315).  `prompt` is a `const char*`
(`none` = NULL); `output_null` says whether `output_buffer` is NULL;
`buffer_size` is the capacity.  The body checks arguments, checks
`g_model_loaded` under the lock, bumps the active counter, copies the
placeholder truncated to `buffer_size - 1` characters plus a NUL terminator,
drops the counter and returns the copied length.  `params` is accepted but
never read, exactly as in the source. -/
def llm_generate (prompt : Option String) (params : Option LLMGenerateParams)
    (output_null : Bool) (buffer_size : Int) (s : BridgeState) : GenOutcome :=
  if prompt.isNone || output_null || buffer_size ≤ 0 then
    { ret := -1, written := [], state := set_error "Invalid parameters" s,
      peak_active := s.active_count }
  else if !s.model_loaded then
    { ret := -1, written := [], state := set_error "No model loaded" s,
      peak_active := s.active_count }
  else
    let len0 : Int := (placeholder.length : Int)
    let len : Int := if len0 ≥ buffer_size then buffer_size - 1 else len0
    { ret := len,
      written := placeholder.toList.take len.toNat ++ [Char.ofNat 0],
      state := s,
      peak_active := s.active_count + 1 }

/-- Embeds `llm_tokenize` (lines 393-408): `-1` on NULL text, NULL output
array or non-positive `max_tokens`; otherwise `strlen(text)/4` floored,
minimum 1. -/
def llm_tokenize (text : Option String) (tokens_null : Bool)
    (max_tokens : Int) : Int :=
  match text with
  | none => -1
  | some t =>
    if tokens_null || max_tokens ≤ 0 then -1
    else
      let estimated : Int := (t.length : Int) / 4
      if estimated > 0 then estimated else 1

/-- Embeds `llm_cancel_inference` (lines 492-496): returns 0 and touches
nothing.  The state is threaded through to make the frame effect a theorem
rather than a typing accident. -/
def llm_cancel_inference (request_id : Int) (s : BridgeState) :
    Int × BridgeState :=
  (0, s)

/-- Embeds `llm_get_active_inference_count` (lines 501-503). -/
def llm_get_active_inference_count (s : BridgeState) : Int :=
  s.active_count

/-- Embeds `llm_get_vocab_size` (lines 425-428). -/
def llm_get_vocab_size : Int := 49152

/-- The outcome of one `llm_generate_async` call: the returned id, the
post-state, and the heap-allocated `InferenceRequest` captured by the enqueued
task (`none` when the call failed before allocating one). -/
structure AsyncOutcome where
  id : Int
  state : BridgeState
  req : Option InferenceRequest
  deriving Repr, DecidableEq

/-- Embeds `llm_generate_async` (lines 326-379) up to the `enqueue` call: the
pool check, the `static` counter increment `id = ++request_id` (line 338), and
the construction of the request record (lines 341-349).  The enqueued closure
itself is embedded separately as `runAsyncTask`. -/
def llm_generate_async (prompt : Option String)
    (params : Option LLMGenerateParams) (has_callback : Bool)
    (s : BridgeState) : AsyncOutcome :=
  if !s.pool_started then
    { id := -1, state := set_error "Thread pool not initialized" s, req := none }
  else
    let id := s.request_counter + 1
    { id := (id : Int),
      state := { s with request_counter := id },
      req := some
        { prompt := prompt.getD ""
          params := params.getD zeroGenerateParams
          has_callback := has_callback
          result := ""
          completed := false
          success := false
          error := "" } }

/-- `request->result = buffer` (line 362) reads the C string up to its NUL
terminator. -/
def bufferString (written : List Char) : String :=
  String.mk (written.takeWhile (fun c => c ≠ Char.ofNat 0))

/-- Embeds the worker closure enqueued by `llm_generate_async`
(lines 352-376): runs `llm_generate` on an 8192-byte stack buffer, then on
`result > 0` stores the text, marks success and (if present) invokes the
callback once with the final text; otherwise records `llm_get_last_error()` in
the request's `error` field.  `completed` is set last in both branches. -/
def runAsyncTask (req : InferenceRequest) (s : BridgeState) :
    InferenceRequest × BridgeState :=
  let out := llm_generate (some req.prompt) (some req.params) false 8192 s
  if out.ret > 0 then
    ({ req with result := bufferString out.written,
                success := true, completed := true }, out.state)
  else
    ({ req with success := false,
                error := llm_get_last_error out.state,
                completed := true }, out.state)

/-- Submits `k` async requests in order (all with the same arguments, which
the id counter ignores) and collects the returned ids in submission order. -/
def submitK (prompt : Option String) (params : Option LLMGenerateParams)
    (has_callback : Bool) : Nat → BridgeState → List Int × BridgeState
  | 0, s => ([], s)
  | Nat.succ k, s =>
    let out := llm_generate_async prompt params has_callback s
    let rest := submitK prompt params has_callback k out.state
    (out.id :: rest.1, rest.2)

/-- Concrete load parameters used by witnesses: a readable path, with both
tunables left at 0 so the defaulting branch is exercised. -/
def demoParams : LLMModelParams :=
  { model_path := some "m.gguf", n_ctx := 0, n_threads := 0, n_batch := 512,
    rope_freq_base := 10000, rope_freq_scale := 1 }

/-- A reachable state with a model loaded: the post-state of a successful
`llm_load_model` from process start. -/
def loadedState : BridgeState :=
  (llm_load_model (fun _ => true) (some demoParams) initState).2

/-- A reachable state with the worker pool started: the post-state of
`llm_init` on a 4-core host from process start. -/
def pooledState : BridgeState := llm_init 4 initState

example : loadedState.model_loaded = true ∧ loadedState.n_ctx = 2048 := by decide
example : pooledState.pool_started = true ∧ pooledState.pool_size = 4 := by decide

/-- Evaluation of `llm_generate` on the argument-check failure branch
(line 278). -/
theorem llm_generate_invalid (prompt : Option String)
    (params : Option LLMGenerateParams) (output_null : Bool)
    (buffer_size : Int) (s : BridgeState)
    (h : prompt = none ∨ output_null = true ∨ buffer_size ≤ 0) :
    llm_generate prompt params output_null buffer_size s
      = { ret := -1, written := [],
          state := set_error "Invalid parameters" s,
          peak_active := s.active_count } := by
  rcases h with h | h | h <;> simp [llm_generate, h]

/-- Evaluation of `llm_generate` on the model-check failure branch
(lines 283-289). -/
theorem llm_generate_notloaded (p : String)
    (params : Option LLMGenerateParams) (buffer_size : Int) (s : BridgeState)
    (hb : 0 < buffer_size) (hml : s.model_loaded = false) :
    llm_generate (some p) params false buffer_size s
      = { ret := -1, written := [],
          state := set_error "No model loaded" s,
          peak_active := s.active_count } := by
  have hargs : ((some p).isNone || false || decide (buffer_size ≤ 0)) = false := by
    simp only [Option.isNone_some, Bool.false_or, decide_eq_false_iff_not]
    omega
  simp [llm_generate, hargs, hml]
  exact fun h => absurd h (by omega)

/-- Evaluation of `llm_generate` on the success branch (lines 291-314):
placeholder text truncated to the buffer, NUL terminator, counter balanced. -/
theorem llm_generate_success (p : String)
    (params : Option LLMGenerateParams) (buffer_size : Int) (s : BridgeState)
    (hb : 0 < buffer_size) (hml : s.model_loaded = true) :
    llm_generate (some p) params false buffer_size s
      = { ret := if (placeholder.length : Int) ≥ buffer_size
                 then buffer_size - 1 else (placeholder.length : Int),
          written := placeholder.toList.take
              (if (placeholder.length : Int) ≥ buffer_size
               then buffer_size - 1 else (placeholder.length : Int)).toNat
            ++ [Char.ofNat 0],
          state := s,
          peak_active := s.active_count + 1 } := by
  have hargs : ((some p).isNone || false || decide (buffer_size ≤ 0)) = false := by
    simp only [Option.isNone_some, Bool.false_or, decide_eq_false_iff_not]
    omega
  simp [llm_generate, hargs, hml]
  omega

/-- Ids handed out by `submitK` from any pool-started state: in submission
order they are `counter+1, counter+2, ...`, and the counter advances by `k`.
The pool flag is untouched, so the hypothesis is preserved step to step. -/
theorem submitK_ids (prompt : Option String) (params : Option LLMGenerateParams)
    (cb : Bool) (k : Nat) (s : BridgeState) (hpool : s.pool_started = true) :
    (submitK prompt params cb k s).1
      = (List.range k).map (fun i : Nat => ((s.request_counter + i + 1 : Nat) : Int))
    ∧ (submitK prompt params cb k s).2.request_counter = s.request_counter + k
    ∧ (submitK prompt params cb k s).2.pool_started = true := by
  induction k generalizing s with
  | zero => simpa [submitK] using hpool
  | succ k ih =>
    have hstate : (llm_generate_async prompt params cb s).state
        = { s with request_counter := s.request_counter + 1 } := by
      simp [llm_generate_async, hpool]
    have hid : (llm_generate_async prompt params cb s).id
        = ((s.request_counter + 1 : Nat) : Int) := by
      simp [llm_generate_async, hpool]
    obtain ⟨ih1, ih2, ih3⟩ :=
      ih { s with request_counter := s.request_counter + 1 } hpool
    have hcons : submitK prompt params cb (k + 1) s
        = ((llm_generate_async prompt params cb s).id ::
            (submitK prompt params cb k
              (llm_generate_async prompt params cb s).state).1,
           (submitK prompt params cb k
              (llm_generate_async prompt params cb s).state).2) := rfl
    refine ⟨?_, ?_, ?_⟩
    · rw [hcons]
      dsimp only
      rw [hid, hstate, ih1, List.range_succ_eq_map, List.map_cons,
        List.map_map]
      dsimp only
      congr 1
      apply List.map_congr_left
      intro i _
      simp only [Function.comp_apply]
      push_cast
      ring
    · rw [hcons]
      dsimp only
      rw [hstate, ih2]
      dsimp only
      omega
    · rw [hcons]
      dsimp only
      rw [hstate]
      exact ih3

/-- Claim C1 — request ids issued by `generate_async` are strictly ascending
from 1: from a fresh counter with the pool started, submitting `K` requests
returns, in submission order, exactly the ids `1, 2, ..., K` (so the first
call returns 1, each id is one more than the previous, and the ids are unique
and cover `[1..K]`). -/
theorem C1_async_ids_ascending (prompt : Option String)
    (params : Option LLMGenerateParams) (cb : Bool) (K : Nat)
    (s : BridgeState) (hpool : s.pool_started = true)
    (hfresh : s.request_counter = 0) :
    (submitK prompt params cb K s).1
      = (List.range K).map (fun i : Nat => ((i : Int) + 1)) := by
  obtain ⟨h1, -, -⟩ := submitK_ids prompt params cb K s hpool
  rw [h1]
  apply List.map_congr_left
  intro i _
  rw [hfresh]
  push_cast
  ring

/-- Witness for C1: three submissions from the freshly initialized pool yield
ids `[1, 2, 3]`. -/
theorem C1_async_ids_ascending_witness :
    (submitK (some "hi") none false 3 pooledState).1
      = (List.range 3).map (fun i : Nat => ((i : Int) + 1)) :=
  C1_async_ids_ascending (some "hi") none false 3 pooledState
    (by decide) (by decide)

/-- Claim C2 — `load_model` on a readable path succeeds: status 0, afterwards
`is_model_loaded` reports 1, `context_size()` is the given `n_ctx` when
positive and 2048 otherwise, and the stored thread count is the given
`n_threads` when positive and 4 otherwise. -/
theorem C2_load_model_success (fileReadable : String → Bool)
    (p : LLMModelParams) (path : String) (s : BridgeState)
    (hpath : p.model_path = some path) (hread : fileReadable path = true) :
    (llm_load_model fileReadable (some p) s).1 = 0
    ∧ llm_is_model_loaded (llm_load_model fileReadable (some p) s).2 = 1
    ∧ llm_get_context_size (llm_load_model fileReadable (some p) s).2
        = (if p.n_ctx > 0 then p.n_ctx else 2048)
    ∧ (llm_load_model fileReadable (some p) s).2.n_threads
        = (if p.n_threads > 0 then p.n_threads else 4) := by
  simp [llm_load_model, hpath, hread, llm_is_model_loaded,
    llm_get_context_size]

/-- Witness for C2: loading `"m.gguf"` with both tunables 0 from process start
succeeds and defaults `context_size` to 2048 and the thread count to 4. -/
theorem C2_load_model_success_witness :
    (llm_load_model (fun _ => true) (some demoParams) initState).1 = 0
    ∧ llm_is_model_loaded
        (llm_load_model (fun _ => true) (some demoParams) initState).2 = 1
    ∧ llm_get_context_size
        (llm_load_model (fun _ => true) (some demoParams) initState).2
        = (if demoParams.n_ctx > 0 then demoParams.n_ctx else 2048)
    ∧ (llm_load_model (fun _ => true) (some demoParams) initState).2.n_threads
        = (if demoParams.n_threads > 0 then demoParams.n_threads else 4) :=
  C2_load_model_success (fun _ => true) demoParams "m.gguf" initState rfl rfl

/-- Claim C8 — `cancel` returns the success status 0 and leaves the entire
program state unchanged, for every request id and every state. -/
theorem C8_cancel_noop (request_id : Int) (s : BridgeState) :
    llm_cancel_inference request_id s = (0, s) := rfl

/-- Claim C9 — `load_model` is atomic on error: whenever the call fails
(returns −1), the registry fields — loaded flag, stored path, context size and
thread count — are exactly what they were before the call. -/
theorem C9_load_model_failure_frame (fileReadable : String → Bool)
    (params : Option LLMModelParams) (s : BridgeState)
    (hfail : (llm_load_model fileReadable params s).1 = -1) :
    (llm_load_model fileReadable params s).2.model_loaded = s.model_loaded
    ∧ (llm_load_model fileReadable params s).2.model_path = s.model_path
    ∧ (llm_load_model fileReadable params s).2.n_ctx = s.n_ctx
    ∧ (llm_load_model fileReadable params s).2.n_threads = s.n_threads := by
  match params with
  | none => simp [llm_load_model, set_error]
  | some p =>
    match hp : p.model_path with
    | none => simp [llm_load_model, hp, set_error]
    | some path =>
      by_cases hr : fileReadable path = true
      · exfalso
        simp [llm_load_model, hp, hr] at hfail
      · simp only [Bool.not_eq_true] at hr
        simp [llm_load_model, hp, hr, set_error]

set_option maxRecDepth 8192 in
/-- Counterexample to claim C3 as stated: with a model loaded, a call whose
prompt is the empty (non-NULL) string and whose capacity is 32 does NOT fail —
the `!prompt` test at line 278 is a NULL check, an empty string passes it.
The call returns 31, writes 32 characters, and leaves the error channel
untouched. -/
theorem C3_counterexample_empty_prompt_accepted :
    (llm_generate (some "") none false 32 loadedState).ret = 31
    ∧ (llm_generate (some "") none false 32 loadedState).written ≠ []
    ∧ (llm_generate (some "") none false 32 loadedState).state.last_error
        ≠ "Invalid parameters" := by
  refine ⟨by decide, by decide, by decide⟩

/-- Claim C3 as amended — `generate` fails with `InvalidArgument` exactly on
the argument checks the code performs: NULL prompt, NULL output buffer, or
non-positive capacity.  In each such case it returns −1, writes nothing, and
sets the error channel to "Invalid parameters".  (An empty but non-NULL
prompt is accepted, contrary to the original claim.) -/
theorem C3_invalid_arguments_rejected (prompt : Option String)
    (params : Option LLMGenerateParams) (output_null : Bool)
    (buffer_size : Int) (s : BridgeState)
    (h : prompt = none ∨ output_null = true ∨ buffer_size ≤ 0) :
    llm_generate prompt params output_null buffer_size s
      = { ret := -1, written := [],
          state := set_error "Invalid parameters" s,
          peak_active := s.active_count } := by
  rcases h with h | h | h <;>
    simp [llm_generate, h]

/-- Witness for amended C3: a NULL prompt from process start is rejected with
"Invalid parameters" and nothing is written. -/
theorem C3_invalid_arguments_rejected_witness :
    llm_generate none none false 64 initState
      = { ret := -1, written := [],
          state := set_error "Invalid parameters" initState,
          peak_active := initState.active_count } :=
  C3_invalid_arguments_rejected none none false 64 initState (Or.inl rfl)

/-- Counterexample to claim C4 as stated: before any load, a call whose prompt
is NULL fails with `InvalidArgument` ("Invalid parameters"), not with
`ModelNotLoaded` ("No model loaded") — the argument check at line 278 runs
before the model check at line 285, so not every pre-load call fails with
`ModelNotLoaded`. -/
theorem C4_counterexample_invalid_args_win :
    (llm_generate none none false 16 initState).ret = -1
    ∧ (llm_generate none none false 16 initState).state.last_error
        = "Invalid parameters"
    ∧ (llm_generate none none false 16 initState).state.last_error
        ≠ "No model loaded" := by
  refine ⟨by decide, by decide, by decide⟩

/-- Claim C4 as amended — before any successful `load_model`, every `generate`
call fails (returns −1) and writes nothing to the output destination, and
whenever its arguments pass the initial validation (non-NULL prompt, non-NULL
buffer, positive capacity) the failure is `ModelNotLoaded`: the error channel
is set to "No model loaded" and the engine simulation never runs. -/
theorem C4_generate_unloaded_fails (prompt : Option String)
    (params : Option LLMGenerateParams) (output_null : Bool)
    (buffer_size : Int) (s : BridgeState)
    (hml : s.model_loaded = false) :
    (llm_generate prompt params output_null buffer_size s).ret = -1
    ∧ (llm_generate prompt params output_null buffer_size s).written = []
    ∧ (∀ p : String, prompt = some p → output_null = false → 0 < buffer_size →
        (llm_generate prompt params output_null buffer_size s).state
          = set_error "No model loaded" s) := by
  by_cases harg : prompt.isNone || output_null || decide (buffer_size ≤ 0)
  · refine ⟨?_, ?_, ?_⟩
    · simp [llm_generate, harg]
    · simp [llm_generate, harg]
    · intro p hp ho hb
      rw [hp, ho] at harg
      simp only [Option.isNone_some, Bool.false_or, decide_eq_true_eq] at harg
      omega
  · refine ⟨?_, ?_, ?_⟩
    · simp [llm_generate, harg, hml]
    · simp [llm_generate, harg, hml]
    · intro p hp ho hb
      simp [llm_generate, harg, hml]

/-- Witness for amended C4: a valid-argument call from process start fails with
−1, writes nothing, and reports "No model loaded". -/
theorem C4_generate_unloaded_fails_witness :
    (llm_generate (some "hello") none false 64 initState).ret = -1
    ∧ (llm_generate (some "hello") none false 64 initState).written = []
    ∧ (∀ p : String, (some "hello" : Option String) = some p → false = false →
        (0 : Int) < 64 →
        (llm_generate (some "hello") none false 64 initState).state
          = set_error "No model loaded" initState) :=
  C4_generate_unloaded_fails (some "hello") none false 64 initState rfl

/-- Witness for C9: a load with NULL parameters from process start fails and
leaves every registry field at its initial value. -/
theorem C9_load_model_failure_frame_witness :
    (llm_load_model (fun _ => false) none initState).2.model_loaded
        = initState.model_loaded
    ∧ (llm_load_model (fun _ => false) none initState).2.model_path
        = initState.model_path
    ∧ (llm_load_model (fun _ => false) none initState).2.n_ctx
        = initState.n_ctx
    ∧ (llm_load_model (fun _ => false) none initState).2.n_threads
        = initState.n_threads :=
  C9_load_model_failure_frame (fun _ => false) none initState (by decide)

set_option maxRecDepth 8192 in
/-- Claim C5 — truncation: with a model loaded and a positive capacity no
larger than the produced text, `generate` writes exactly `capacity - 1`
characters of content followed by a NUL terminator, returns `capacity - 1`,
writes exactly `capacity` buffer cells in total (so never at or beyond index
`capacity`), and leaves the state — in particular the error channel —
untouched. -/
theorem C5_truncation (p : String) (params : Option LLMGenerateParams)
    (buffer_size : Int) (s : BridgeState) (hml : s.model_loaded = true)
    (hpos : 0 < buffer_size)
    (hcap : buffer_size ≤ (placeholder.length : Int)) :
    (llm_generate (some p) params false buffer_size s).ret = buffer_size - 1
    ∧ (llm_generate (some p) params false buffer_size s).written
        = placeholder.toList.take (buffer_size - 1).toNat ++ [Char.ofNat 0]
    ∧ ((llm_generate (some p) params false buffer_size s).written.length : Int)
        = buffer_size
    ∧ (llm_generate (some p) params false buffer_size s).state = s := by
  have hplen : placeholder.toList.length = 155 := by decide
  have hplen' : (placeholder.length : Int) = 155 := by decide
  rw [llm_generate_success p params buffer_size s hpos hml]
  refine ⟨?_, ?_, ?_, rfl⟩
  · exact if_pos hcap
  · rw [if_pos hcap]
  · rw [if_pos hcap]
    rw [List.length_append, List.length_take, hplen]
    rw [hplen'] at hcap
    simp only [List.length_singleton]
    omega

set_option maxRecDepth 8192 in
/-- Witness for C5: with the loaded model and capacity 5, `generate` returns
4, writes 4 content characters plus the terminator (5 cells), and leaves the
state unchanged. -/
theorem C5_truncation_witness :
    (llm_generate (some "hi") none false 5 loadedState).ret = 5 - 1
    ∧ (llm_generate (some "hi") none false 5 loadedState).written
        = placeholder.toList.take ((5 : Int) - 1).toNat ++ [Char.ofNat 0]
    ∧ ((llm_generate (some "hi") none false 5 loadedState).written.length : Int)
        = 5
    ∧ (llm_generate (some "hi") none false 5 loadedState).state = loadedState :=
  C5_truncation "hi" none 5 loadedState (by decide) (by decide) (by decide)

/-- Counterexample to claim C6 as stated: `tokenize` on the empty (non-NULL)
string returns 1 — not −1, and not any value distinguishable from a valid
count, since a non-empty text such as "word" also yields 1 (the minimum-1
branch at line 407 applies to the empty string as well). -/
theorem C6_counterexample_empty_not_sentinel :
    llm_tokenize (some "") false 16 = 1
    ∧ llm_tokenize (some "word") false 16 = 1
    ∧ llm_tokenize (some "") false 16 ≠ -1 := by
  refine ⟨by decide, by decide, by decide⟩

/-- Claim C6 as amended — `tokenize` returns −1 exactly for NULL text, a NULL
output array, or non-positive `max_tokens`; for every non-NULL text accepted
by those checks it returns `strlen(text)/4` floored with a minimum of 1
(always ≥ 1), and in particular the empty string yields 1, the same value as
any short non-empty text, not an error sentinel. -/
theorem C6_tokenize_counts (t : String) (max_tokens mneg : Int)
    (hmt : 0 < max_tokens) (hneg : mneg ≤ 0) :
    llm_tokenize none false max_tokens = -1
    ∧ llm_tokenize (some t) true max_tokens = -1
    ∧ llm_tokenize (some t) false mneg = -1
    ∧ llm_tokenize (some t) false max_tokens = max ((t.length : Int) / 4) 1
    ∧ 1 ≤ llm_tokenize (some t) false max_tokens
    ∧ llm_tokenize (some "") false max_tokens = 1 := by
  have hnot : ¬ (max_tokens ≤ 0) := by omega
  have hargs : (false || decide (max_tokens ≤ 0)) = false := by
    simp [hnot]
  refine ⟨rfl, rfl, ?_, ?_, ?_, ?_⟩
  · simp [llm_tokenize, hneg]
  · simp only [llm_tokenize, hargs, Bool.false_eq_true, if_false]
    have h0 : 0 ≤ (t.length : Int) / 4 := by positivity
    by_cases hq : (t.length : Int) / 4 > 0
    · rw [if_pos hq]
      omega
    · rw [if_neg hq]
      omega
  · simp only [llm_tokenize, hargs, Bool.false_eq_true, if_false]
    by_cases hq : (t.length : Int) / 4 > 0
    · rw [if_pos hq]
      omega
    · rw [if_neg hq]
  · simp [llm_tokenize, hnot]

/-- Witness for amended C6: text "hello world" (11 characters) with
`max_tokens` 16 yields 2 = max(11/4, 1); the NULL/non-positive cases yield −1;
the empty string yields 1. -/
theorem C6_tokenize_counts_witness :
    llm_tokenize none false 16 = -1
    ∧ llm_tokenize (some "hello world") true 16 = -1
    ∧ llm_tokenize (some "hello world") false 0 = -1
    ∧ llm_tokenize (some "hello world") false 16
        = max ((("hello world" : String).length : Int) / 4) 1
    ∧ 1 ≤ llm_tokenize (some "hello world") false 16
    ∧ llm_tokenize (some "") false 16 = 1 :=
  C6_tokenize_counts "hello world" 16 0 (by decide) (by decide)

/-- Claim C7 — the active-request counter is balanced: every `generate` call
returns with the counter at its pre-call value; during the simulated engine
invocation on the success path it is exactly one higher (the peak), on every
failure path the peak equals the pre-call value (never incremented), and a
non-negative counter stays non-negative, as reported by
`active_inference_count`. -/
theorem C7_active_count_balanced (prompt : Option String)
    (params : Option LLMGenerateParams) (output_null : Bool)
    (buffer_size : Int) (s : BridgeState) (hnn : 0 ≤ s.active_count) :
    (llm_generate prompt params output_null buffer_size s).state.active_count
        = s.active_count
    ∧ ((llm_generate prompt params output_null buffer_size s).ret = -1 →
        (llm_generate prompt params output_null buffer_size s).peak_active
          = s.active_count)
    ∧ (0 ≤ (llm_generate prompt params output_null buffer_size s).ret →
        (llm_generate prompt params output_null buffer_size s).peak_active
          = s.active_count + 1)
    ∧ 0 ≤ llm_get_active_inference_count
        (llm_generate prompt params output_null buffer_size s).state := by
  rcases hp : prompt with _ | p
  · rw [llm_generate_invalid none params output_null buffer_size s
      (Or.inl rfl)]
    exact ⟨rfl, fun _ => rfl, fun h => absurd h (by norm_num), hnn⟩
  · cases ho : output_null with
    | true =>
      rw [llm_generate_invalid (some p) params true buffer_size s
        (Or.inr (Or.inl rfl))]
      exact ⟨rfl, fun _ => rfl, fun h => absurd h (by norm_num), hnn⟩
    | false =>
      by_cases hc : buffer_size ≤ 0
      · rw [llm_generate_invalid (some p) params false buffer_size s
          (Or.inr (Or.inr hc))]
        exact ⟨rfl, fun _ => rfl, fun h => absurd h (by norm_num), hnn⟩
      · cases hml : s.model_loaded with
        | false =>
          rw [llm_generate_notloaded p params buffer_size s (by omega) hml]
          exact ⟨rfl, fun _ => rfl, fun h => absurd h (by norm_num), hnn⟩
        | true =>
          rw [llm_generate_success p params buffer_size s (by omega) hml]
          refine ⟨rfl, ?_, fun _ => rfl, hnn⟩
          intro h
          dsimp only at h
          exfalso
          by_cases hge : (placeholder.length : Int) ≥ buffer_size
          · rw [if_pos hge] at h
            omega
          · rw [if_neg hge] at h
            omega

/-- Witness for C7: a successful call with capacity 8 on the loaded state
keeps the counter at 0, with a peak of 1 during the call. -/
theorem C7_active_count_balanced_witness :
    (llm_generate (some "hi") none false 8 loadedState).state.active_count
        = loadedState.active_count
    ∧ ((llm_generate (some "hi") none false 8 loadedState).ret = -1 →
        (llm_generate (some "hi") none false 8 loadedState).peak_active
          = loadedState.active_count)
    ∧ (0 ≤ (llm_generate (some "hi") none false 8 loadedState).ret →
        (llm_generate (some "hi") none false 8 loadedState).peak_active
          = loadedState.active_count + 1)
    ∧ 0 ≤ llm_get_active_inference_count
        (llm_generate (some "hi") none false 8 loadedState).state :=
  C7_active_count_balanced (some "hi") none false 8 loadedState (by decide)

/-- Claim C10 — `generate_async` validates nothing about the prompt or the
model at submission time: with the pool started and no model loaded, the call
still returns a positive request id and records the prompt (a NULL prompt is
stored as the empty string); the `ModelNotLoaded` failure appears only in the
request record once the worker task runs — the task completes with
`success = false` and the error field set to "No model loaded". -/
theorem C10_async_submission_unvalidated (prompt : Option String)
    (params : Option LLMGenerateParams) (cb : Bool) (s : BridgeState)
    (hpool : s.pool_started = true) (hml : s.model_loaded = false) :
    0 < (llm_generate_async prompt params cb s).id
    ∧ ∃ req : InferenceRequest,
        (llm_generate_async prompt params cb s).req = some req
        ∧ req.prompt = prompt.getD ""
        ∧ (runAsyncTask req
            (llm_generate_async prompt params cb s).state).1.completed = true
        ∧ (runAsyncTask req
            (llm_generate_async prompt params cb s).state).1.success = false
        ∧ (runAsyncTask req
            (llm_generate_async prompt params cb s).state).1.error
              = "No model loaded" := by
  have hstep :
      llm_generate_async prompt params cb s
        = { id := ((s.request_counter + 1 : Nat) : Int),
            state := { s with request_counter := s.request_counter + 1 },
            req := some
              { prompt := prompt.getD "",
                params := params.getD zeroGenerateParams,
                has_callback := cb, result := "", completed := false,
                success := false, error := "" } } := by
    simp [llm_generate_async, hpool]
  rw [hstep]
  dsimp only
  have hgen := llm_generate_notloaded (prompt.getD "")
    (some (params.getD zeroGenerateParams)) 8192
    { s with request_counter := s.request_counter + 1 }
    (by omega) (by dsimp only; exact hml)
  refine ⟨by positivity, ?_⟩
  refine ⟨_, rfl, rfl, ?_, ?_, ?_⟩ <;>
    simp [runAsyncTask, hgen, llm_get_last_error, set_error]

/-- Witness for C10: submitting with a NULL prompt from the freshly
initialized pool (no model loaded) returns id 1, stores the empty prompt, and
the worker task later completes the request with `success = false` and error
"No model loaded". -/
theorem C10_async_submission_unvalidated_witness :
    0 < (llm_generate_async none none false pooledState).id
    ∧ ∃ req : InferenceRequest,
        (llm_generate_async none none false pooledState).req = some req
        ∧ req.prompt = (none : Option String).getD ""
        ∧ (runAsyncTask req
            (llm_generate_async none none false pooledState).state).1.completed
              = true
        ∧ (runAsyncTask req
            (llm_generate_async none none false pooledState).state).1.success
              = false
        ∧ (runAsyncTask req
            (llm_generate_async none none false pooledState).state).1.error
              = "No model loaded" :=
  C10_async_submission_unvalidated none none false pooledState
    (by decide) (by decide)
